import Mathlib

/-
Shallow embedding of the HLW8012 power-metering driver (HLW8012.cpp).

The C++ class state is modelled as a Lean structure; each member function
becomes a pure state transformer.  The microsecond clock (micros), the
blocking pulse poll (pulseIn) and the GPIO select line are externalised:
every operation that reads the clock takes an explicit `now` argument,
every operation that may poll takes the value `poll` that pulseIn would
return, and the physical select line is a `sel_level` field written by
digitalWrite / DIRECT_pinWrite.

Machine arithmetic: unsigned long and unsigned int are 32 bits wide on the
target (ESP8266/ESP32), so timestamp subtraction, counters and stored pulse
widths are reduced mod 2^32.  The C++ comparisons (long)(a-b) > timeout in
the source compare a long against an unsigned long, which the usual
arithmetic conversions turn into an unsigned comparison, so the embedding
compares the wrapped difference directly.  Floating point quantities
(multipliers, readings, resistor values) are modelled as rationals.
-/

/-- 2^32, the modulus of unsigned long / unsigned int arithmetic on the target. -/
def M32 : Nat := 4294967296

/-- Wrapping 32-bit unsigned subtraction a - b, as computed for the
interrupt timestamp differences in the source. -/
def tsub (a b : Nat) : Nat := (a % M32 + (M32 - b % M32)) % M32

/-- The C expression 1 - m on an unsigned char m (promoted to int, then
truncated back to unsigned char), used for mode complements. -/
def oneMinusUC (m : Nat) : Nat := (257 - m % 256) % 256

/-- Truncation of a rational toward zero, the semantics of the C
static_cast from float to int used in the calibration calls. -/
def truncF (q : ℚ) : ℤ := Int.tdiv q.num (q.den : ℤ)

/-- Modelled from the spec: the reference voltage constant of the sensor
chip (header file with the V_REF constant is not part of the sources; the
spec describes a fixed positive reference voltage used by the analytic
multiplier formulas). -/
def V_REF : ℚ := 243 / 100

/-- Modelled from the spec: the chip oscillator frequency constant (header
file with the F_OSC constant is not part of the sources; the spec describes
a fixed positive reference frequency used by the analytic multiplier
formulas). -/
def F_OSC : ℚ := 3579000

/-- Modelled from the spec: default current shunt resistor value assumed at
initialization (header default, positive). -/
def R_CURRENT : ℚ := 1 / 1000

/-- Modelled from the spec: default voltage divider ratio assumed at
initialization (header default, positive). -/
def R_VOLTAGE : ℚ := 2821

/-- The measurement mode of the shared CF1 channel. -/
inductive hlw8012_mode_t where
  | MODE_CURRENT
  | MODE_VOLTAGE
deriving DecidableEq, Repr

export hlw8012_mode_t (MODE_CURRENT MODE_VOLTAGE)

/-- The HLW8012 engine state: one field per C++ data member, plus
sel_level, the physical level currently driven on the select pin. -/
structure HLW8012 where
  _cf_pin : Nat
  _cf1_pin : Nat
  _sel_pin : Nat
  _current_mode : Nat
  _use_interrupts : Bool
  _pulse_timeout : Nat
  _mode : Nat
  sel_level : Nat
  _current_resistor : ℚ
  _voltage_resistor : ℚ
  _current_multiplier : ℚ
  _voltage_multiplier : ℚ
  _power_multiplier : ℚ
  _current : ℚ
  _voltage : ℚ
  _power : ℚ
  _current_pulse_width : Nat
  _voltage_pulse_width : Nat
  _power_pulse_width : Nat
  _last_cf_interrupt : Nat
  _first_cf_interrupt : Nat
  _last_cf1_interrupt : Nat
  _first_cf1_interrupt : Nat
  _cf_pulse_count : Nat
  _cf1_pulse_count : Nat
  _cf_pulse_count_total : Nat
deriving Repr

/-- The result of a quantity accessor: returned float value, the by-ref
validity flag, and the engine state after the call. -/
structure Meas where
  value : ℚ
  valid : Bool
  state : HLW8012
deriving Repr

namespace HLW8012

/-- Modelled from the spec: the default-constructed engine before begin
runs (the header with the member initializers is not part of the sources;
the spec says pulse state starts all-zero and resistors hold the default
values). -/
def init : HLW8012 where
  _cf_pin := 0
  _cf1_pin := 0
  _sel_pin := 0
  _current_mode := 1
  _use_interrupts := true
  _pulse_timeout := 0
  _mode := 1
  sel_level := 0
  _current_resistor := R_CURRENT
  _voltage_resistor := R_VOLTAGE
  _current_multiplier := 0
  _voltage_multiplier := 0
  _power_multiplier := 0
  _current := 0
  _voltage := 0
  _power := 0
  _current_pulse_width := 0
  _voltage_pulse_width := 0
  _power_pulse_width := 0
  _last_cf_interrupt := 0
  _first_cf_interrupt := 0
  _last_cf1_interrupt := 0
  _first_cf1_interrupt := 0
  _cf_pulse_count := 0
  _cf1_pulse_count := 0
  _cf_pulse_count_total := 0

/-- HLW8012::_calculateDefaultMultipliers. -/
def _calculateDefaultMultipliers (s : HLW8012) : HLW8012 :=
  { s with
    _current_multiplier := 1000000 * 512 * V_REF / s._current_resistor / 24 / F_OSC
    _voltage_multiplier := 1000000 * 512 * V_REF * s._voltage_resistor / 2 / F_OSC
    _power_multiplier :=
      1000000 * 128 * V_REF * V_REF * s._voltage_resistor / s._current_resistor / 48 / F_OSC }

/-- HLW8012::begin, applied to the default-constructed engine. -/
def begin (cf_pin cf1_pin sel_pin currentWhen : Nat) (use_interrupts : Bool)
    (pulse_timeout : Nat) : HLW8012 :=
  let s1 : HLW8012 :=
    { init with
      _cf_pin := cf_pin % 256
      _cf1_pin := cf1_pin % 256
      _sel_pin := sel_pin % 256
      _current_mode := currentWhen % 256
      _use_interrupts := use_interrupts
      _pulse_timeout := pulse_timeout % M32 }
  let s2 := _calculateDefaultMultipliers s1
  { s2 with _mode := s2._current_mode, sel_level := s2._current_mode }

/-- HLW8012::setMode. -/
def setMode (s : HLW8012) (mode : hlw8012_mode_t) (now : Nat) : HLW8012 :=
  let m := if mode = MODE_CURRENT then s._current_mode else oneMinusUC s._current_mode
  let s1 := { s with _mode := m, sel_level := m }
  if s1._use_interrupts then
    { s1 with _last_cf1_interrupt := now % M32, _first_cf1_interrupt := now % M32 }
  else s1

/-- HLW8012::getMode. -/
def getMode (s : HLW8012) : hlw8012_mode_t :=
  if s._mode = s._current_mode then MODE_CURRENT else MODE_VOLTAGE

/-- HLW8012::toggleMode: returns the new mode and the state after setMode. -/
def toggleMode (s : HLW8012) (now : Nat) : hlw8012_mode_t × HLW8012 :=
  let new_mode := if getMode s = MODE_CURRENT then MODE_VOLTAGE else MODE_CURRENT
  (new_mode, setMode s new_mode now)

/-- HLW8012::_checkCF1Signal: lazy staleness check on the shared channel. -/
def _checkCF1Signal (s : HLW8012) (now : Nat) : HLW8012 :=
  if tsub now s._last_cf1_interrupt > s._pulse_timeout then
    let s1 :=
      if s._use_interrupts then
        { s with
          _last_cf1_interrupt := now % M32
          _first_cf1_interrupt := now % M32
          _cf1_pulse_count := 0 }
      else s
    let s2 :=
      if s1._mode = s1._current_mode then { s1 with _current_pulse_width := 0 }
      else { s1 with _voltage_pulse_width := 0 }
    let m := oneMinusUC s2._mode
    { s2 with _mode := m, sel_level := m }
  else s

/-- HLW8012::_checkCFSignal: lazy staleness check on the power channel. -/
def _checkCFSignal (s : HLW8012) (now : Nat) : HLW8012 :=
  if tsub now s._last_cf_interrupt > 2 * s._pulse_timeout % M32 then
    let s1 :=
      if s._use_interrupts then
        { s with
          _last_cf_interrupt := now % M32
          _first_cf_interrupt := now % M32
          _cf_pulse_count := 0 }
      else s
    { s1 with _power_pulse_width := 0 }
  else s

/-- The state-update phase at the top of HLW8012::getCurrent: the zero
power short-circuit, else the lazy staleness check under interrupts, else
the blocking poll when the shared channel is in current mode. -/
def currentUpdate (s : HLW8012) (now poll : Nat) : HLW8012 :=
  if s._power = 0 then { s with _current_pulse_width := 0 }
  else if s._use_interrupts then _checkCF1Signal s now
  else if s._mode = s._current_mode then { s with _current_pulse_width := poll % M32 }
  else s

/-- HLW8012::getCurrent.  now is the micros() reading inside the call and
poll is the width pulseIn would return on the polling path. -/
def getCurrent (s : HLW8012) (now poll : Nat) : Meas :=
  let s1 := currentUpdate s now poll
  let w := s1._current_pulse_width
  if 0 < w then
    let v := s1._current_multiplier / (w : ℚ) / 2
    { value := v, valid := true, state := { s1 with _current := v } }
  else
    { value := 0, valid := false, state := { s1 with _current := 0 } }

/-- The state-update phase at the top of HLW8012::getVoltage. -/
def voltageUpdate (s : HLW8012) (now poll : Nat) : HLW8012 :=
  if s._use_interrupts then _checkCF1Signal s now
  else if s._mode ≠ s._current_mode then { s with _voltage_pulse_width := poll % M32 }
  else s

/-- HLW8012::getVoltage. -/
def getVoltage (s : HLW8012) (now poll : Nat) : Meas :=
  let s1 := voltageUpdate s now poll
  let w := s1._voltage_pulse_width
  if 0 < w then
    let v := s1._voltage_multiplier / (w : ℚ) / 2
    { value := v, valid := true, state := { s1 with _voltage := v } }
  else
    { value := 0, valid := false, state := { s1 with _voltage := 0 } }

/-- The state-update phase at the top of HLW8012::getActivePower. -/
def powerUpdate (s : HLW8012) (now poll : Nat) : HLW8012 :=
  if s._use_interrupts then _checkCFSignal s now
  else { s with _power_pulse_width := poll % M32 }

/-- HLW8012::getActivePower. -/
def getActivePower (s : HLW8012) (now poll : Nat) : Meas :=
  let s1 := powerUpdate s now poll
  let w := s1._power_pulse_width
  if 0 < w then
    let v := s1._power_multiplier / (w : ℚ) / 2
    { value := v, valid := true, state := { s1 with _power := v } }
  else
    { value := 0, valid := false, state := { s1 with _power := 0 } }

/-- HLW8012::getApparentPower: getCurrent then getVoltage, product of the
values, conjunction of the validity flags. -/
def getApparentPower (s : HLW8012) (nowC pollC nowV pollV : Nat) : Meas :=
  let rc := getCurrent s nowC pollC
  let rv := getVoltage rc.state nowV pollV
  { value := rv.value * rc.value, valid := rc.valid && rv.valid, state := rv.state }

/-- HLW8012::getPowerFactor. -/
def getPowerFactor (s : HLW8012) (nowP pollP nowC pollC nowV pollV : Nat) : Meas :=
  let ra := getActivePower s nowP pollP
  let rap := getApparentPower ra.state nowC pollC nowV pollV
  let valid := ra.valid && rap.valid
  if rap.value < ra.value then { value := 1, valid := valid, state := rap.state }
  else if rap.value = 0 then { value := 0, valid := valid, state := rap.state }
  else { value := ra.value / rap.value, valid := valid, state := rap.state }

/-- HLW8012::expectedCurrent: calibrate the current multiplier against a
reference value. -/
def expectedCurrent (s : HLW8012) (value : ℚ) (now poll : Nat) : HLW8012 :=
  let refreshed := truncF s._current = 0
  let r := getCurrent s now poll
  let valid := if refreshed then r.valid else false
  let s1 := if refreshed then r.state else s
  if valid = true ∧ 0 < truncF s1._current then
    { s1 with _current_multiplier := s1._current_multiplier * (value / s1._current) }
  else s1

/-- HLW8012::expectedVoltage. -/
def expectedVoltage (s : HLW8012) (value : ℚ) (now poll : Nat) : HLW8012 :=
  let refreshed := truncF s._voltage = 0
  let r := getVoltage s now poll
  let valid := if refreshed then r.valid else false
  let s1 := if refreshed then r.state else s
  if valid = true ∧ 0 < truncF s1._voltage then
    { s1 with _voltage_multiplier := s1._voltage_multiplier * (value / s1._voltage) }
  else s1

/-- HLW8012::expectedActivePower. -/
def expectedActivePower (s : HLW8012) (value : ℚ) (now poll : Nat) : HLW8012 :=
  let refreshed := truncF s._power = 0
  let r := getActivePower s now poll
  let valid := if refreshed then r.valid else false
  let s1 := if refreshed then r.state else s
  if valid = true ∧ 0 < truncF s1._power then
    { s1 with _power_multiplier := s1._power_multiplier * (value / s1._power) }
  else s1

/-- HLW8012::resetMultipliers. -/
def resetMultipliers (s : HLW8012) : HLW8012 :=
  _calculateDefaultMultipliers s

/-- HLW8012::setResistors. -/
def setResistors (s : HLW8012) (current voltage_upstream voltage_downstream : ℚ) : HLW8012 :=
  if 0 < voltage_downstream then
    let s1 := if 0 < current then { s with _current_resistor := current } else s
    let s2 :=
      { s1 with
        _voltage_resistor := (voltage_upstream + voltage_downstream) / voltage_downstream }
    _calculateDefaultMultipliers s2
  else s

/-- HLW8012::filter (defined in the source though currently unused by the
interrupt paths). -/
def filter (oldvalue newvalue : Nat) : Nat :=
  if oldvalue = 0 then newvalue
  else (oldvalue + 3 * newvalue) % M32 / 4

/-- HLW8012::cf_interrupt: edge callback of the power channel. -/
def cf_interrupt (s : HLW8012) (now : Nat) : HLW8012 :=
  let last_cf_interrupt := s._last_cf_interrupt
  let s0 :=
    { s with
      _last_cf_interrupt := now % M32
      _cf_pulse_count_total := (s._cf_pulse_count_total + 1) % M32 }
  let time_since_first := tsub now s._first_cf_interrupt
  if time_since_first > 2 * s._pulse_timeout % M32 then
    let first_cf_interrupt := s._first_cf_interrupt
    let pulse_count := s._cf_pulse_count
    let s1 := { s0 with _first_cf_interrupt := now % M32, _cf_pulse_count := 0 }
    if last_cf_interrupt = first_cf_interrupt ∨ pulse_count < 3 then
      { s1 with _power_pulse_width := 0 }
    else
      let pulse_width :=
        if pulse_count < 10 then tsub now last_cf_interrupt
        else time_since_first / pulse_count
      { s1 with _power_pulse_width := pulse_width }
  else
    { s0 with _cf_pulse_count := (s0._cf_pulse_count + 1) % M32 }

/-- HLW8012::cf1_interrupt: edge callback of the shared channel; closes the
averaging window and toggles the mode when the window has elapsed. -/
def cf1_interrupt (s : HLW8012) (now : Nat) : HLW8012 :=
  let last_cf1_interrupt := s._last_cf1_interrupt
  let s0 := { s with _last_cf1_interrupt := now % M32 }
  let time_since_first := tsub now s._first_cf1_interrupt
  if time_since_first > s._pulse_timeout then
    let first_cf1_interrupt := s._first_cf1_interrupt
    let pulse_count := s._cf1_pulse_count
    let mode := s._mode
    let newMode := oneMinusUC mode
    let s1 :=
      { s0 with
        _first_cf1_interrupt := now % M32
        _cf1_pulse_count := 0
        _mode := newMode
        sel_level := newMode }
    if last_cf1_interrupt = first_cf1_interrupt ∨ pulse_count < 3 then
      if mode = s._current_mode then { s1 with _current_pulse_width := 0 }
      else { s1 with _voltage_pulse_width := 0 }
    else
      let pulse_width :=
        if pulse_count < 10 then tsub now last_cf1_interrupt
        else time_since_first / pulse_count
      if mode = s._current_mode then { s1 with _current_pulse_width := pulse_width }
      else { s1 with _voltage_pulse_width := pulse_width }
  else
    { s0 with _cf1_pulse_count := (s0._cf1_pulse_count + 1) % M32 }

/-- A state as left by polling use: interrupts disabled, select line in
voltage position while the configured current level is 1, a power reading
cached, and a current pulse width left from an earlier current-mode poll. -/
def samplePolling : HLW8012 :=
  { init with
    _use_interrupts := false
    _mode := 0
    _current_mode := 1
    _power := 5
    _current := 0
    _current_pulse_width := 400
    _current_multiplier := 4000 }

/-- The polling state with a larger stored current pulse width, so that the
fresh reading is one half: valid and nonzero but truncating to int 0. -/
def samplePollingHalf : HLW8012 := { samplePolling with _current_pulse_width := 4000 }

/-- A closed shared-channel window in which three edges all carry the same
timestamp as the window start: the pulse count is 3 but the last edge
timestamp coincides with the window start timestamp. -/
def sampleDegenerateWindow : HLW8012 :=
  { init with
    _pulse_timeout := 100
    _first_cf1_interrupt := 1000
    _last_cf1_interrupt := 1000
    _cf1_pulse_count := 3
    _mode := 1
    _current_mode := 1 }

/-- A shared-channel window with distinct edge timestamps, used to
instantiate the window-estimation theorem: 5 pulses on the shared channel,
12 pulses on the power channel. -/
def sampleWindow : HLW8012 :=
  { init with
    _pulse_timeout := 100
    _first_cf1_interrupt := 1000
    _last_cf1_interrupt := 2000
    _cf1_pulse_count := 5
    _first_cf_interrupt := 1000
    _last_cf_interrupt := 2000
    _cf_pulse_count := 12
    _mode := 1
    _current_mode := 1 }

/-- A polling-discipline state for the power-factor scenarios: select line
in voltage position, simple multipliers, a current pulse width in store. -/
def samplePF : HLW8012 :=
  { init with
    _use_interrupts := false
    _mode := 0
    _current_mode := 1
    _power_multiplier := 4000
    _current_multiplier := 1000
    _voltage_multiplier := 4000
    _current_pulse_width := 500 }

/-- An interrupt-driven state in CURRENT mode with a zero cached active
power and a stale shared channel (no edge since timestamp 0). -/
def sampleStaleZeroPower : HLW8012 :=
  { init with
    _use_interrupts := true
    _power := 0
    _mode := 1
    _current_mode := 1
    _pulse_timeout := 100
    _last_cf1_interrupt := 0 }

/-- The same stale interrupt-driven CURRENT-mode state but with a nonzero
cached active power, so the staleness check actually runs. -/
def sampleStale : HLW8012 :=
  { sampleStaleZeroPower with _power := 7 }

end HLW8012

namespace HLW8012

theorem checkCF1_frame (s : HLW8012) (now : Nat) :
    (_checkCF1Signal s now)._current_multiplier = s._current_multiplier ∧
    (_checkCF1Signal s now)._voltage_multiplier = s._voltage_multiplier ∧
    (_checkCF1Signal s now)._power_multiplier = s._power_multiplier ∧
    (_checkCF1Signal s now)._current = s._current ∧
    (_checkCF1Signal s now)._voltage = s._voltage ∧
    (_checkCF1Signal s now)._power = s._power := by
  simp only [_checkCF1Signal]
  split <;> [skip; simp]
  split <;> split <;> simp

theorem checkCF_frame (s : HLW8012) (now : Nat) :
    (_checkCFSignal s now)._current_multiplier = s._current_multiplier ∧
    (_checkCFSignal s now)._voltage_multiplier = s._voltage_multiplier ∧
    (_checkCFSignal s now)._power_multiplier = s._power_multiplier ∧
    (_checkCFSignal s now)._current = s._current ∧
    (_checkCFSignal s now)._voltage = s._voltage ∧
    (_checkCFSignal s now)._power = s._power := by
  simp only [_checkCFSignal]
  split <;> [skip; simp]
  split <;> simp

theorem currentUpdate_frame (s : HLW8012) (now poll : Nat) :
    (currentUpdate s now poll)._current_multiplier = s._current_multiplier ∧
    (currentUpdate s now poll)._voltage_multiplier = s._voltage_multiplier ∧
    (currentUpdate s now poll)._power_multiplier = s._power_multiplier := by
  unfold currentUpdate
  split
  · simp
  · split
    · exact ⟨(checkCF1_frame s now).1, (checkCF1_frame s now).2.1, (checkCF1_frame s now).2.2.1⟩
    · split <;> simp

theorem voltageUpdate_frame (s : HLW8012) (now poll : Nat) :
    (voltageUpdate s now poll)._current_multiplier = s._current_multiplier ∧
    (voltageUpdate s now poll)._voltage_multiplier = s._voltage_multiplier ∧
    (voltageUpdate s now poll)._power_multiplier = s._power_multiplier := by
  unfold voltageUpdate
  split
  · exact ⟨(checkCF1_frame s now).1, (checkCF1_frame s now).2.1, (checkCF1_frame s now).2.2.1⟩
  · split <;> simp

theorem powerUpdate_frame (s : HLW8012) (now poll : Nat) :
    (powerUpdate s now poll)._current_multiplier = s._current_multiplier ∧
    (powerUpdate s now poll)._voltage_multiplier = s._voltage_multiplier ∧
    (powerUpdate s now poll)._power_multiplier = s._power_multiplier := by
  unfold powerUpdate
  split
  · exact ⟨(checkCF_frame s now).1, (checkCF_frame s now).2.1, (checkCF_frame s now).2.2.1⟩
  · simp

/-- C2: each direct accessor computes multiplier / width / 2 with validity
true exactly when the pulse width left in store by the call is positive,
and returns 0 with validity false when that width is the sentinel 0.  The
multiplier used is the one held before the call (the accessors never touch
the multipliers). -/
theorem claim2_direct_accessors (s : HLW8012) (now poll : Nat) :
    ((getCurrent s now poll).value =
      if 0 < (getCurrent s now poll).state._current_pulse_width then
        s._current_multiplier / ((getCurrent s now poll).state._current_pulse_width : ℚ) / 2
      else 0) ∧
    ((getCurrent s now poll).valid =
      decide (0 < (getCurrent s now poll).state._current_pulse_width)) ∧
    ((getVoltage s now poll).value =
      if 0 < (getVoltage s now poll).state._voltage_pulse_width then
        s._voltage_multiplier / ((getVoltage s now poll).state._voltage_pulse_width : ℚ) / 2
      else 0) ∧
    ((getVoltage s now poll).valid =
      decide (0 < (getVoltage s now poll).state._voltage_pulse_width)) ∧
    ((getActivePower s now poll).value =
      if 0 < (getActivePower s now poll).state._power_pulse_width then
        s._power_multiplier / ((getActivePower s now poll).state._power_pulse_width : ℚ) / 2
      else 0) ∧
    ((getActivePower s now poll).valid =
      decide (0 < (getActivePower s now poll).state._power_pulse_width)) := by
  have hc := (currentUpdate_frame s now poll).1
  have hv := (voltageUpdate_frame s now poll).2.1
  have hp := (powerUpdate_frame s now poll).2.2
  refine ⟨?_, ?_, ?_, ?_, ?_, ?_⟩ <;>
    simp only [getCurrent, getVoltage, getActivePower] <;> split <;>
      first
        | (next hw => simp [hw, hc])
        | (next hw => simp [hw, hv])
        | (next hw => simp [hw, hp])

/-- C8: whenever the cached active power reading is exactly zero, every
getCurrent call forces the current pulse width to the sentinel 0 instead of
re-measuring it and returns value 0 with validity false; the state is
otherwise untouched, so this holds under the interrupt-driven and the
polling discipline alike. -/
theorem claim8_zero_power_short_circuit (s : HLW8012) (now poll : Nat)
    (h : s._power = 0) :
    getCurrent s now poll =
      { value := 0, valid := false,
        state := { s with _current_pulse_width := 0, _current := 0 } } := by
  unfold getCurrent currentUpdate
  rw [if_pos h]
  simp

theorem claim8_witness :
    HLW8012.init._power = 0 ∧
    getCurrent init 0 0 =
      { value := 0, valid := false,
        state := { init with _current_pulse_width := 0, _current := 0 } } :=
  ⟨rfl, claim8_zero_power_short_circuit init 0 0 rfl⟩

/-- C10: a getCurrent call made while the cached active power is exactly
zero leaves the mode, the select line and the shared-channel window state
(pulse count and both edge timestamps) unchanged: the staleness check does
not run and no mode toggle occurs, whatever the discipline. -/
theorem claim10_zero_power_frame (s : HLW8012) (now poll : Nat)
    (h : s._power = 0) :
    (getCurrent s now poll).state._mode = s._mode ∧
    (getCurrent s now poll).state.sel_level = s.sel_level ∧
    (getCurrent s now poll).state._cf1_pulse_count = s._cf1_pulse_count ∧
    (getCurrent s now poll).state._first_cf1_interrupt = s._first_cf1_interrupt ∧
    (getCurrent s now poll).state._last_cf1_interrupt = s._last_cf1_interrupt := by
  unfold getCurrent currentUpdate
  rw [if_pos h]
  simp

theorem claim10_witness :
    HLW8012.init._power = 0 ∧
    ((getCurrent init 42 9).state._mode = init._mode ∧
     (getCurrent init 42 9).state.sel_level = init.sel_level ∧
     (getCurrent init 42 9).state._cf1_pulse_count = init._cf1_pulse_count ∧
     (getCurrent init 42 9).state._first_cf1_interrupt = init._first_cf1_interrupt ∧
     (getCurrent init 42 9).state._last_cf1_interrupt = init._last_cf1_interrupt) :=
  ⟨rfl, claim10_zero_power_frame init 42 9 rfl⟩

/-- C1 counterexample: a closed shared-channel window whose three pulses
all carry the window-start timestamp.  The pulse count is 3, so the claim
prescribes the most recent inter-edge interval (here 1000), but the code
also forces the sentinel whenever the last edge timestamp equals the window
start timestamp, and writes 0. -/
theorem claim1_counterexample :
    tsub 2000 sampleDegenerateWindow._first_cf1_interrupt >
      sampleDegenerateWindow._pulse_timeout ∧
    sampleDegenerateWindow._cf1_pulse_count = 3 ∧
    sampleDegenerateWindow._mode = sampleDegenerateWindow._current_mode ∧
    tsub 2000 sampleDegenerateWindow._last_cf1_interrupt = 1000 ∧
    (cf1_interrupt sampleDegenerateWindow 2000)._current_pulse_width = 0 ∧
    (0 : Nat) ≠ 1000 := by
  decide

/-- C1 amended: for every closed averaging window on either channel the
resulting pulse width is the sentinel 0 if the pulse count is below 3 OR
the last edge timestamp coincides with the window start timestamp; the most
recent inter-edge interval if the count is in [3, 10) and the timestamps
differ; and the elapsed time divided by the count (integer division) if the
count is at least 10 and the timestamps differ. -/
theorem claim1_window_estimation (s : HLW8012) (now : Nat) :
    (tsub now s._first_cf1_interrupt > s._pulse_timeout →
      (if s._mode = s._current_mode then (cf1_interrupt s now)._current_pulse_width
       else (cf1_interrupt s now)._voltage_pulse_width) =
      (if s._last_cf1_interrupt = s._first_cf1_interrupt ∨ s._cf1_pulse_count < 3 then 0
       else if s._cf1_pulse_count < 10 then tsub now s._last_cf1_interrupt
       else tsub now s._first_cf1_interrupt / s._cf1_pulse_count)) ∧
    (tsub now s._first_cf_interrupt > 2 * s._pulse_timeout % M32 →
      (cf_interrupt s now)._power_pulse_width =
      (if s._last_cf_interrupt = s._first_cf_interrupt ∨ s._cf_pulse_count < 3 then 0
       else if s._cf_pulse_count < 10 then tsub now s._last_cf_interrupt
       else tsub now s._first_cf_interrupt / s._cf_pulse_count)) := by
  constructor
  · intro h
    simp only [cf1_interrupt, h, if_true, gt_iff_lt]
    repeat' split
    all_goals simp_all
  · intro h
    simp only [cf_interrupt, h, if_true, gt_iff_lt]
    repeat' split
    all_goals simp_all

theorem claim1_witness :
    (tsub 5000 sampleWindow._first_cf1_interrupt > sampleWindow._pulse_timeout ∧
     (if sampleWindow._mode = sampleWindow._current_mode then
        (cf1_interrupt sampleWindow 5000)._current_pulse_width
      else (cf1_interrupt sampleWindow 5000)._voltage_pulse_width) =
      (if sampleWindow._last_cf1_interrupt = sampleWindow._first_cf1_interrupt ∨
          sampleWindow._cf1_pulse_count < 3 then 0
       else if sampleWindow._cf1_pulse_count < 10 then
         tsub 5000 sampleWindow._last_cf1_interrupt
       else tsub 5000 sampleWindow._first_cf1_interrupt / sampleWindow._cf1_pulse_count)) ∧
    (tsub 5000 sampleWindow._first_cf_interrupt > 2 * sampleWindow._pulse_timeout % M32 ∧
     (cf_interrupt sampleWindow 5000)._power_pulse_width =
      (if sampleWindow._last_cf_interrupt = sampleWindow._first_cf_interrupt ∨
          sampleWindow._cf_pulse_count < 3 then 0
       else if sampleWindow._cf_pulse_count < 10 then
         tsub 5000 sampleWindow._last_cf_interrupt
       else tsub 5000 sampleWindow._first_cf_interrupt / sampleWindow._cf_pulse_count)) :=
  ⟨⟨by decide, (claim1_window_estimation sampleWindow 5000).1 (by decide)⟩,
   ⟨by decide, (claim1_window_estimation sampleWindow 5000).2 (by decide)⟩⟩

/-- C7 counterexample: the shared channel is stale in CURRENT mode under
the interrupt-driven discipline, but the cached active power is zero, so
getCurrent takes the zero-power short circuit: it does return 0 with
validity false, yet no staleness check runs and the select line is not
toggled to the VOLTAGE level, contrary to the claim. -/
theorem claim7_counterexample :
    tsub 1000 sampleStaleZeroPower._last_cf1_interrupt >
      sampleStaleZeroPower._pulse_timeout ∧
    sampleStaleZeroPower._use_interrupts = true ∧
    sampleStaleZeroPower._mode = sampleStaleZeroPower._current_mode ∧
    (getCurrent sampleStaleZeroPower 1000 0).valid = false ∧
    (getCurrent sampleStaleZeroPower 1000 0).state._mode = sampleStaleZeroPower._mode ∧
    (getCurrent sampleStaleZeroPower 1000 0).state.sel_level = sampleStaleZeroPower.sel_level ∧
    (getCurrent sampleStaleZeroPower 1000 0).state._cf1_pulse_count =
      sampleStaleZeroPower._cf1_pulse_count ∧
    sampleStaleZeroPower._mode ≠ oneMinusUC sampleStaleZeroPower._current_mode := by
  decide

/-- C7 amended: under the interrupt-driven discipline, in CURRENT mode,
with a NONZERO cached active power, a getCurrent call whose clock reading
exceeds the timeout since the last shared-channel edge returns 0 with
validity false, forces the current pulse width to the sentinel, restarts
the shared window (both timestamps set to now, pulse count 0), and toggles
the mode field and the select line to the VOLTAGE level (the complement of
the configured current level).  The nonzero-power hypothesis is forced by
the counterexample: with zero cached power the short circuit skips the
staleness check. -/
theorem claim7_stale_current_amended (s : HLW8012) (now poll : Nat)
    (hui : s._use_interrupts = true) (hp : s._power ≠ 0)
    (hm : s._mode = s._current_mode)
    (hst : tsub now s._last_cf1_interrupt > s._pulse_timeout) :
    (getCurrent s now poll).valid = false ∧
    (getCurrent s now poll).value = 0 ∧
    (getCurrent s now poll).state._current_pulse_width = 0 ∧
    (getCurrent s now poll).state._last_cf1_interrupt = now % M32 ∧
    (getCurrent s now poll).state._first_cf1_interrupt = now % M32 ∧
    (getCurrent s now poll).state._cf1_pulse_count = 0 ∧
    (getCurrent s now poll).state._mode = oneMinusUC s._current_mode ∧
    (getCurrent s now poll).state.sel_level = oneMinusUC s._current_mode := by
  simp [getCurrent, currentUpdate, _checkCF1Signal, hp, hui, hst, hm]

theorem claim7_witness :
    sampleStale._use_interrupts = true ∧
    sampleStale._power ≠ 0 ∧
    sampleStale._mode = sampleStale._current_mode ∧
    tsub 1000 sampleStale._last_cf1_interrupt > sampleStale._pulse_timeout ∧
    ((getCurrent sampleStale 1000 0).valid = false ∧
     (getCurrent sampleStale 1000 0).value = 0 ∧
     (getCurrent sampleStale 1000 0).state._current_pulse_width = 0 ∧
     (getCurrent sampleStale 1000 0).state._last_cf1_interrupt = 1000 % M32 ∧
     (getCurrent sampleStale 1000 0).state._first_cf1_interrupt = 1000 % M32 ∧
     (getCurrent sampleStale 1000 0).state._cf1_pulse_count = 0 ∧
     (getCurrent sampleStale 1000 0).state._mode = oneMinusUC sampleStale._current_mode ∧
     (getCurrent sampleStale 1000 0).state.sel_level = oneMinusUC sampleStale._current_mode) :=
  ⟨by decide, by decide, by decide, by decide,
   claim7_stale_current_amended sampleStale 1000 0 (by decide) (by decide) (by decide)
     (by decide)⟩

/-- C9: for every state whose configured current level is binary (as any
state reachable from begin with a binary currentWhen level is, since only
begin writes the configured level), toggleMode returns the logical opposite
of the mode in effect before the call, the select line afterwards carries
the configured polarity of the returned mode (the configured level for
CURRENT, its complement for VOLTAGE), and getMode straight after setMode m
returns m. -/
theorem claim9_mode_controller (s : HLW8012) (now : Nat) (m : hlw8012_mode_t)
    (h : s._current_mode = 0 ∨ s._current_mode = 1) :
    ((getMode s = MODE_CURRENT → (toggleMode s now).1 = MODE_VOLTAGE) ∧
     (getMode s = MODE_VOLTAGE → (toggleMode s now).1 = MODE_CURRENT)) ∧
    ((toggleMode s now).2.sel_level =
      if (toggleMode s now).1 = MODE_CURRENT then s._current_mode
      else 1 - s._current_mode) ∧
    getMode (setMode s m now) = m := by
  rcases h with h | h <;> cases m <;>
    by_cases hm : s._mode = s._current_mode <;>
      by_cases hui : s._use_interrupts = true <;>
        simp [toggleMode, setMode, getMode, oneMinusUC, hm, h, hui]

theorem truncF_pos {q : ℚ} (h : 0 < truncF q) : 0 < q := by
  rcases lt_or_le 0 q.num with hn | hn
  · exact Rat.num_pos.mp hn
  · exfalso
    have h2 : (0:ℤ) ≤ (q.den : ℤ) := by positivity
    have h3 := Int.tdiv_nonneg (a := -q.num) (b := (q.den : ℤ)) (by omega) h2
    rw [Int.neg_tdiv] at h3
    unfold truncF at h
    omega

theorem getCurrent_multipliers (s : HLW8012) (now poll : Nat) :
    (getCurrent s now poll).state._current_multiplier = s._current_multiplier ∧
    (getCurrent s now poll).state._voltage_multiplier = s._voltage_multiplier ∧
    (getCurrent s now poll).state._power_multiplier = s._power_multiplier := by
  have h := currentUpdate_frame s now poll
  simp only [getCurrent]
  split <;> simp [h.1, h.2.1, h.2.2]

theorem getVoltage_multipliers (s : HLW8012) (now poll : Nat) :
    (getVoltage s now poll).state._current_multiplier = s._current_multiplier ∧
    (getVoltage s now poll).state._voltage_multiplier = s._voltage_multiplier ∧
    (getVoltage s now poll).state._power_multiplier = s._power_multiplier := by
  have h := voltageUpdate_frame s now poll
  simp only [getVoltage]
  split <;> simp [h.1, h.2.1, h.2.2]

theorem getActivePower_multipliers (s : HLW8012) (now poll : Nat) :
    (getActivePower s now poll).state._current_multiplier = s._current_multiplier ∧
    (getActivePower s now poll).state._voltage_multiplier = s._voltage_multiplier ∧
    (getActivePower s now poll).state._power_multiplier = s._power_multiplier := by
  have h := powerUpdate_frame s now poll
  simp only [getActivePower]
  split <;> simp [h.1, h.2.1, h.2.2]

theorem getCurrent_state_current (s : HLW8012) (now poll : Nat) :
    (getCurrent s now poll).state._current = (getCurrent s now poll).value := by
  simp only [getCurrent]
  split <;> simp

theorem getVoltage_state_voltage (s : HLW8012) (now poll : Nat) :
    (getVoltage s now poll).state._voltage = (getVoltage s now poll).value := by
  simp only [getVoltage]
  split <;> simp

theorem getActivePower_state_power (s : HLW8012) (now poll : Nat) :
    (getActivePower s now poll).state._power = (getActivePower s now poll).value := by
  simp only [getActivePower]
  split <;> simp

theorem expectedCurrent_eq (s : HLW8012) (v : ℚ) (now poll : Nat) :
    expectedCurrent s v now poll =
      if truncF s._current = 0 then
        (if (getCurrent s now poll).valid = true ∧
            0 < truncF (getCurrent s now poll).state._current then
          { (getCurrent s now poll).state with
            _current_multiplier :=
              (getCurrent s now poll).state._current_multiplier *
                (v / (getCurrent s now poll).state._current) }
         else (getCurrent s now poll).state)
      else s := by
  unfold expectedCurrent
  by_cases h : truncF s._current = 0 <;> simp [h]

theorem expectedVoltage_eq (s : HLW8012) (v : ℚ) (now poll : Nat) :
    expectedVoltage s v now poll =
      if truncF s._voltage = 0 then
        (if (getVoltage s now poll).valid = true ∧
            0 < truncF (getVoltage s now poll).state._voltage then
          { (getVoltage s now poll).state with
            _voltage_multiplier :=
              (getVoltage s now poll).state._voltage_multiplier *
                (v / (getVoltage s now poll).state._voltage) }
         else (getVoltage s now poll).state)
      else s := by
  unfold expectedVoltage
  by_cases h : truncF s._voltage = 0 <;> simp [h]

theorem expectedActivePower_eq (s : HLW8012) (v : ℚ) (now poll : Nat) :
    expectedActivePower s v now poll =
      if truncF s._power = 0 then
        (if (getActivePower s now poll).valid = true ∧
            0 < truncF (getActivePower s now poll).state._power then
          { (getActivePower s now poll).state with
            _power_multiplier :=
              (getActivePower s now poll).state._power_multiplier *
                (v / (getActivePower s now poll).state._power) }
         else (getActivePower s now poll).state)
      else s := by
  unfold expectedActivePower
  by_cases h : truncF s._power = 0 <;> simp [h]

/-- C4 counterexample: a state in which the fresh measurement forced by
expectedCurrent is valid and nonzero (one half), yet the multiplier is left
unchanged instead of being scaled by v divided by that reading, because the
code additionally requires the reading truncated to int to be positive. -/
theorem claim4_counterexample :
    truncF samplePollingHalf._current = 0 ∧
    (getCurrent samplePollingHalf 0 0).valid = true ∧
    (getCurrent samplePollingHalf 0 0).value = 1 / 2 ∧
    ((1 : ℚ) / 2) ≠ 0 ∧
    (expectedCurrent samplePollingHalf 3 0 0)._current_multiplier = 4000 ∧
    (4000 : ℚ) ≠ 4000 * (3 / (1 / 2)) := by
  norm_num [expectedCurrent, getCurrent, currentUpdate, samplePollingHalf, samplePolling,
    init, truncF, M32, Int.tdiv]

/-- C4 amended: each calibration call refreshes the measurement exactly
when the cached reading truncated to int is zero, and then scales the
multiplier by v divided by the fresh reading only when the refreshed
measurement is valid AND the fresh reading truncated to int is positive
(that is, at least 1); in every other case, including a cached reading
truncating to a nonzero int (where nothing at all happens) and a valid
fresh reading strictly between 0 and 1, the multiplier is unchanged. -/
theorem claim4_calibration (s : HLW8012) (v : ℚ) (now poll : Nat) :
    ((truncF s._current ≠ 0 → expectedCurrent s v now poll = s) ∧
     (truncF s._current = 0 →
       (expectedCurrent s v now poll)._current = (getCurrent s now poll).value ∧
       ((getCurrent s now poll).valid = true → 0 < truncF (getCurrent s now poll).value →
         (expectedCurrent s v now poll)._current_multiplier =
           s._current_multiplier * (v / (getCurrent s now poll).value)) ∧
       (((getCurrent s now poll).valid = false ∨ truncF (getCurrent s now poll).value ≤ 0) →
         (expectedCurrent s v now poll)._current_multiplier = s._current_multiplier))) ∧
    ((truncF s._voltage ≠ 0 → expectedVoltage s v now poll = s) ∧
     (truncF s._voltage = 0 →
       (expectedVoltage s v now poll)._voltage = (getVoltage s now poll).value ∧
       ((getVoltage s now poll).valid = true → 0 < truncF (getVoltage s now poll).value →
         (expectedVoltage s v now poll)._voltage_multiplier =
           s._voltage_multiplier * (v / (getVoltage s now poll).value)) ∧
       (((getVoltage s now poll).valid = false ∨ truncF (getVoltage s now poll).value ≤ 0) →
         (expectedVoltage s v now poll)._voltage_multiplier = s._voltage_multiplier))) ∧
    ((truncF s._power ≠ 0 → expectedActivePower s v now poll = s) ∧
     (truncF s._power = 0 →
       (expectedActivePower s v now poll)._power = (getActivePower s now poll).value ∧
       ((getActivePower s now poll).valid = true →
         0 < truncF (getActivePower s now poll).value →
         (expectedActivePower s v now poll)._power_multiplier =
           s._power_multiplier * (v / (getActivePower s now poll).value)) ∧
       (((getActivePower s now poll).valid = false ∨
           truncF (getActivePower s now poll).value ≤ 0) →
         (expectedActivePower s v now poll)._power_multiplier = s._power_multiplier))) := by
  refine ⟨⟨?_, ?_⟩, ⟨?_, ?_⟩, ⟨?_, ?_⟩⟩
  · intro h
    rw [expectedCurrent_eq, if_neg h]
  · intro h
    have hm := (getCurrent_multipliers s now poll).1
    have hc := getCurrent_state_current s now poll
    rw [expectedCurrent_eq, if_pos h]
    refine ⟨?_, ?_, ?_⟩
    · split <;> simp [hc]
    · intro hv ht
      rw [if_pos ⟨hv, by rw [hc]; exact ht⟩]
      simp [hm, hc]
    · intro hd
      rcases hd with hd | hd
      · rw [if_neg (by simp [hd])]
        exact hm
      · rw [if_neg (by rw [hc]; intro hx; exact absurd hx.2 (not_lt.mpr hd))]
        exact hm
  · intro h
    rw [expectedVoltage_eq, if_neg h]
  · intro h
    have hm := (getVoltage_multipliers s now poll).2.1
    have hc := getVoltage_state_voltage s now poll
    rw [expectedVoltage_eq, if_pos h]
    refine ⟨?_, ?_, ?_⟩
    · split <;> simp [hc]
    · intro hv ht
      rw [if_pos ⟨hv, by rw [hc]; exact ht⟩]
      simp [hm, hc]
    · intro hd
      rcases hd with hd | hd
      · rw [if_neg (by simp [hd])]
        exact hm
      · rw [if_neg (by rw [hc]; intro hx; exact absurd hx.2 (not_lt.mpr hd))]
        exact hm
  · intro h
    rw [expectedActivePower_eq, if_neg h]
  · intro h
    have hm := (getActivePower_multipliers s now poll).2.2
    have hc := getActivePower_state_power s now poll
    rw [expectedActivePower_eq, if_pos h]
    refine ⟨?_, ?_, ?_⟩
    · split <;> simp [hc]
    · intro hv ht
      rw [if_pos ⟨hv, by rw [hc]; exact ht⟩]
      simp [hm, hc]
    · intro hd
      rcases hd with hd | hd
      · rw [if_neg (by simp [hd])]
        exact hm
      · rw [if_neg (by rw [hc]; intro hx; exact absurd hx.2 (not_lt.mpr hd))]
        exact hm

theorem claim4_witness :
    truncF samplePolling._current = 0 ∧
    (getCurrent samplePolling 0 0).valid = true ∧
    0 < truncF (getCurrent samplePolling 0 0).value ∧
    (expectedCurrent samplePolling 10 0 0)._current_multiplier =
      samplePolling._current_multiplier * (10 / (getCurrent samplePolling 0 0).value) := by
  have hval : (getCurrent samplePolling 0 0).value = 5 := by
    norm_num [getCurrent, currentUpdate, samplePolling, init, M32]
  have hvalid : (getCurrent samplePolling 0 0).valid = true := by
    norm_num [getCurrent, currentUpdate, samplePolling, init, M32]
  have ht : 0 < truncF (getCurrent samplePolling 0 0).value := by
    rw [hval]; decide
  exact ⟨by decide, hvalid, ht,
    ((claim4_calibration samplePolling 10 0 0).1.2 (by decide)).2.1 hvalid ht⟩

/-- C5 counterexample: a calibration call with a negative reference value
succeeds (a valid reading of 5 is obtained and the scale is applied), and
drives the current multiplier negative: the strict-positivity invariant
fails for that argument value. -/
theorem claim5_counterexample :
    (expectedCurrent samplePolling (-1) 0 0)._current_multiplier = -800 ∧
    ¬(0 < (expectedCurrent samplePolling (-1) 0 0)._current_multiplier) := by
  norm_num [expectedCurrent, getCurrent, currentUpdate, samplePolling, init, truncF,
    M32, Int.tdiv]

set_option maxHeartbeats 1600000 in
/-- C5 amended: the three multipliers are strictly positive after begin
(with the default resistors) and stay strictly positive across
resetMultipliers and setResistors provided the stored resistors and
multipliers are positive and the upstream divider argument is nonnegative;
each calibration call keeps its multiplier positive provided the reference
value is positive, never touches the other two multipliers, and leaves its
multiplier unchanged whenever the underlying measurement is invalid (a
failed calibration). -/
theorem claim5_positive_multipliers (s : HLW8012) (c u d v : ℚ)
    (cf cf1 sel cw pt now poll : Nat) (ui : Bool) :
    (0 < (begin cf cf1 sel cw ui pt)._current_multiplier ∧
     0 < (begin cf cf1 sel cw ui pt)._voltage_multiplier ∧
     0 < (begin cf cf1 sel cw ui pt)._power_multiplier) ∧
    (0 < s._current_resistor → 0 < s._voltage_resistor →
      0 < (resetMultipliers s)._current_multiplier ∧
      0 < (resetMultipliers s)._voltage_multiplier ∧
      0 < (resetMultipliers s)._power_multiplier) ∧
    (0 < s._current_resistor → 0 < s._voltage_resistor → 0 ≤ u →
      0 < s._current_multiplier → 0 < s._voltage_multiplier → 0 < s._power_multiplier →
      0 < (setResistors s c u d)._current_multiplier ∧
      0 < (setResistors s c u d)._voltage_multiplier ∧
      0 < (setResistors s c u d)._power_multiplier) ∧
    (0 < v → 0 < s._current_multiplier →
      0 < (expectedCurrent s v now poll)._current_multiplier) ∧
    ((expectedCurrent s v now poll)._voltage_multiplier = s._voltage_multiplier ∧
     (expectedCurrent s v now poll)._power_multiplier = s._power_multiplier) ∧
    ((getCurrent s now poll).valid = false →
      (expectedCurrent s v now poll)._current_multiplier = s._current_multiplier) ∧
    (0 < v → 0 < s._voltage_multiplier →
      0 < (expectedVoltage s v now poll)._voltage_multiplier) ∧
    ((expectedVoltage s v now poll)._current_multiplier = s._current_multiplier ∧
     (expectedVoltage s v now poll)._power_multiplier = s._power_multiplier) ∧
    ((getVoltage s now poll).valid = false →
      (expectedVoltage s v now poll)._voltage_multiplier = s._voltage_multiplier) ∧
    (0 < v → 0 < s._power_multiplier →
      0 < (expectedActivePower s v now poll)._power_multiplier) ∧
    ((expectedActivePower s v now poll)._current_multiplier = s._current_multiplier ∧
     (expectedActivePower s v now poll)._voltage_multiplier = s._voltage_multiplier) ∧
    ((getActivePower s now poll).valid = false →
      (expectedActivePower s v now poll)._power_multiplier = s._power_multiplier) := by
  refine ⟨?_, ?_, ?_, ?_, ?_, ?_, ?_, ?_, ?_, ?_, ?_, ?_⟩
  · simp [begin, _calculateDefaultMultipliers, init, R_CURRENT, R_VOLTAGE, V_REF, F_OSC]
  · intro h1 h2
    unfold resetMultipliers _calculateDefaultMultipliers V_REF F_OSC
    refine ⟨?_, ?_, ?_⟩ <;> simp <;> positivity
  · intro h1 h2 hu m1 m2 m3
    unfold setResistors
    by_cases hd : 0 < d
    · rw [if_pos hd]
      have hv : 0 < (u + d) / d := div_pos (by linarith) hd
      by_cases hc : 0 < c <;>
        · unfold _calculateDefaultMultipliers V_REF F_OSC
          refine ⟨?_, ?_, ?_⟩ <;> simp [hc] <;> positivity
    · rw [if_neg hd]
      exact ⟨m1, m2, m3⟩
  · intro hv hm
    rw [expectedCurrent_eq]
    by_cases h0 : truncF s._current = 0
    · rw [if_pos h0]
      split
      next hcond =>
        have hpos : 0 < (getCurrent s now poll).state._current := truncF_pos hcond.2
        simp only [(getCurrent_multipliers s now poll).1]
        exact mul_pos hm (div_pos hv hpos)
      next => simpa [(getCurrent_multipliers s now poll).1] using hm
    · rw [if_neg h0]
      exact hm
  · rw [expectedCurrent_eq]
    have h := getCurrent_multipliers s now poll
    by_cases h0 : truncF s._current = 0
    · rw [if_pos h0]
      split <;> simp [h.2.1, h.2.2]
    · rw [if_neg h0]
      exact ⟨rfl, rfl⟩
  · intro hv
    rw [expectedCurrent_eq]
    by_cases h0 : truncF s._current = 0
    · rw [if_pos h0, if_neg (by simp [hv])]
      exact (getCurrent_multipliers s now poll).1
    · rw [if_neg h0]
  · intro hv hm
    rw [expectedVoltage_eq]
    by_cases h0 : truncF s._voltage = 0
    · rw [if_pos h0]
      split
      next hcond =>
        have hpos : 0 < (getVoltage s now poll).state._voltage := truncF_pos hcond.2
        simp only [(getVoltage_multipliers s now poll).2.1]
        exact mul_pos hm (div_pos hv hpos)
      next => simpa [(getVoltage_multipliers s now poll).2.1] using hm
    · rw [if_neg h0]
      exact hm
  · rw [expectedVoltage_eq]
    have h := getVoltage_multipliers s now poll
    by_cases h0 : truncF s._voltage = 0
    · rw [if_pos h0]
      split <;> simp [h.1, h.2.2]
    · rw [if_neg h0]
      exact ⟨rfl, rfl⟩
  · intro hv
    rw [expectedVoltage_eq]
    by_cases h0 : truncF s._voltage = 0
    · rw [if_pos h0, if_neg (by simp [hv])]
      exact (getVoltage_multipliers s now poll).2.1
    · rw [if_neg h0]
  · intro hv hm
    rw [expectedActivePower_eq]
    by_cases h0 : truncF s._power = 0
    · rw [if_pos h0]
      split
      next hcond =>
        have hpos : 0 < (getActivePower s now poll).state._power := truncF_pos hcond.2
        simp only [(getActivePower_multipliers s now poll).2.2]
        exact mul_pos hm (div_pos hv hpos)
      next => simpa [(getActivePower_multipliers s now poll).2.2] using hm
    · rw [if_neg h0]
      exact hm
  · rw [expectedActivePower_eq]
    have h := getActivePower_multipliers s now poll
    by_cases h0 : truncF s._power = 0
    · rw [if_pos h0]
      split <;> simp [h.1, h.2.1]
    · rw [if_neg h0]
      exact ⟨rfl, rfl⟩
  · intro hv
    rw [expectedActivePower_eq]
    by_cases h0 : truncF s._power = 0
    · rw [if_pos h0, if_neg (by simp [hv])]
      exact (getActivePower_multipliers s now poll).2.2
    · rw [if_neg h0]

theorem claim5_witness :
    0 < (10 : ℚ) ∧
    0 < samplePolling._current_multiplier ∧
    0 < (expectedCurrent samplePolling 10 0 0)._current_multiplier :=
  ⟨by norm_num, by norm_num [samplePolling, init],
   (claim5_positive_multipliers samplePolling 1 1 1 10 0 0 0 0 0 0 0 true).2.2.2.1
     (by norm_num) (by norm_num [samplePolling, init])⟩

/-- C6 counterexample: a setResistors call whose current-shunt argument is
negative is not a no-op: with a positive downstream value the voltage
divider ratio and the multipliers are recomputed anyway (the stored voltage
resistor changes from 2821 to 6). -/
theorem claim6_counterexample :
    ((-1 : ℚ) ≤ 0) ∧
    init._voltage_resistor = 2821 ∧
    (setResistors init (-1) 5 1)._voltage_resistor = 6 ∧
    (6 : ℚ) ≠ 2821 := by
  norm_num [setResistors, init, R_VOLTAGE, _calculateDefaultMultipliers]

/-- C6 amended: only a non-positive downstream divider value makes
setResistors a silent no-op; when the downstream value is positive the call
always stores the new voltage ratio and recomputes all three multipliers,
with a non-positive current-shunt argument merely keeping the previous
current resistor. -/
theorem claim6_set_resistors (s : HLW8012) (c u d : ℚ) :
    (d ≤ 0 → setResistors s c u d = s) ∧
    (0 < d → setResistors s c u d =
      _calculateDefaultMultipliers
        { s with
          _current_resistor := if 0 < c then c else s._current_resistor
          _voltage_resistor := (u + d) / d }) := by
  constructor
  · intro h
    unfold setResistors
    rw [if_neg (not_lt.mpr h)]
  · intro h
    unfold setResistors
    rw [if_pos h]
    by_cases hc : 0 < c <;> simp [hc]

theorem claim6_witness :
    ((0 : ℚ) ≤ 0 ∧ setResistors init 5 5 0 = init) ∧
    (0 < (1 : ℚ) ∧ setResistors init 2 3 1 =
      _calculateDefaultMultipliers
        { init with
          _current_resistor := if (0 : ℚ) < 2 then 2 else init._current_resistor
          _voltage_resistor := ((3 : ℚ) + 1) / 1 }) :=
  ⟨⟨le_refl 0, (claim6_set_resistors init 5 5 0).1 (le_refl 0)⟩,
   ⟨by norm_num, (claim6_set_resistors init 2 3 1).2 (by norm_num)⟩⟩

/-- C3 counterexample: in a state where the active power measurement is
valid and positive (2) while the apparent power reading is 0 (the voltage
measurement is invalid), the claim prescribes a power factor of exactly 0.0
because the apparent reading equals 0, but the code compares active against
apparent first and returns exactly 1.0. -/
theorem claim3_counterexample :
    (getPowerFactor samplePF 0 1000 0 0 0 0).value = 1 ∧
    (getApparentPower (getActivePower samplePF 0 1000).state 0 0 0 0).value = 0 ∧
    (getActivePower samplePF 0 1000).valid = true ∧
    (getActivePower samplePF 0 1000).value = 2 ∧
    (1 : ℚ) ≠ 0 := by
  norm_num [getPowerFactor, getApparentPower, getActivePower, getCurrent, getVoltage,
    powerUpdate, currentUpdate, voltageUpdate, samplePF, init, M32]

/-- C3 amended: getPowerFactor returns exactly 1.0 whenever the active
reading is strictly greater than the apparent reading; otherwise exactly
0.0 when the apparent reading is 0; otherwise active divided by apparent,
which is exactly 1.0 whenever the two readings are equal and nonzero.  Its
validity flag is the conjunction of the validity of the active and the
apparent measurements. -/
theorem claim3_power_factor (s : HLW8012) (nowP pollP nowC pollC nowV pollV : Nat) :
    ((getPowerFactor s nowP pollP nowC pollC nowV pollV).value =
      (if (getApparentPower (getActivePower s nowP pollP).state nowC pollC nowV pollV).value <
          (getActivePower s nowP pollP).value then 1
       else if (getApparentPower (getActivePower s nowP pollP).state nowC pollC nowV
           pollV).value = 0 then 0
       else (getActivePower s nowP pollP).value /
         (getApparentPower (getActivePower s nowP pollP).state nowC pollC nowV pollV).value)) ∧
    ((getPowerFactor s nowP pollP nowC pollC nowV pollV).valid =
      ((getActivePower s nowP pollP).valid &&
       (getApparentPower (getActivePower s nowP pollP).state nowC pollC nowV pollV).valid)) ∧
    ((getApparentPower (getActivePower s nowP pollP).state nowC pollC nowV pollV).value =
        (getActivePower s nowP pollP).value →
     (getApparentPower (getActivePower s nowP pollP).state nowC pollC nowV pollV).value ≠ 0 →
     (getPowerFactor s nowP pollP nowC pollC nowV pollV).value = 1) := by
  refine ⟨?_, ?_, ?_⟩
  · simp only [getPowerFactor]
    split
    · rfl
    · split <;> rfl
  · simp only [getPowerFactor]
    split
    · rfl
    · split <;> rfl
  · intro h1 h2
    simp only [getPowerFactor]
    rw [if_neg (by rw [h1]; exact lt_irrefl _), if_neg h2]
    rw [← h1]
    exact div_self h2

theorem claim3_witness :
    ((getApparentPower (getActivePower samplePF 0 1000).state 0 0 0 1000).value =
      (getActivePower samplePF 0 1000).value ∧
     (getApparentPower (getActivePower samplePF 0 1000).state 0 0 0 1000).value ≠ 0) ∧
    (getPowerFactor samplePF 0 1000 0 0 0 1000).value = 1 :=
  ⟨⟨by norm_num [getApparentPower, getActivePower, getCurrent, getVoltage,
      powerUpdate, currentUpdate, voltageUpdate, samplePF, init, M32],
    by norm_num [getApparentPower, getActivePower, getCurrent, getVoltage,
      powerUpdate, currentUpdate, voltageUpdate, samplePF, init, M32]⟩,
   (claim3_power_factor samplePF 0 1000 0 0 0 1000).2.2
     (by norm_num [getApparentPower, getActivePower, getCurrent, getVoltage,
        powerUpdate, currentUpdate, voltageUpdate, samplePF, init, M32])
     (by norm_num [getApparentPower, getActivePower, getCurrent, getVoltage,
        powerUpdate, currentUpdate, voltageUpdate, samplePF, init, M32])⟩

theorem claim9_witness :
    ((begin 1 2 3 1 false 1000)._current_mode = 0 ∨
     (begin 1 2 3 1 false 1000)._current_mode = 1) ∧
    (((getMode (begin 1 2 3 1 false 1000) = MODE_CURRENT →
        (toggleMode (begin 1 2 3 1 false 1000) 77).1 = MODE_VOLTAGE) ∧
      (getMode (begin 1 2 3 1 false 1000) = MODE_VOLTAGE →
        (toggleMode (begin 1 2 3 1 false 1000) 77).1 = MODE_CURRENT)) ∧
     ((toggleMode (begin 1 2 3 1 false 1000) 77).2.sel_level =
       if (toggleMode (begin 1 2 3 1 false 1000) 77).1 = MODE_CURRENT then
         (begin 1 2 3 1 false 1000)._current_mode
       else 1 - (begin 1 2 3 1 false 1000)._current_mode) ∧
     getMode (setMode (begin 1 2 3 1 false 1000) MODE_VOLTAGE 77) = MODE_VOLTAGE) :=
  ⟨Or.inr (by decide),
   claim9_mode_controller (begin 1 2 3 1 false 1000) 77 MODE_VOLTAGE (Or.inr (by decide))⟩

end HLW8012
